import Mathlib

/-!
Verification of the appointment-booking engine of the
`medical-appointment-ai` repository, shallowly embedded in Lean 4.

Conventions of the embedding:
* pandas DataFrames become Lean lists of records, in row order;
* a time of day "HH:MM" becomes its minute count since midnight (a `Nat`);
  Python's `strftime('%H:%M')` after adding 30 minutes is `(t + 30) % 1440`;
* a Python dict that may be `None` or lack keys becomes an `Option` of a
  key/value list; dict truthiness is non-emptiness;
* the fallible CSV write (`DataFrame.to_csv`) is modelled by a boolean
  `writeOk` parameter: `false` means the write raises;
* raised-and-caught exceptions become explicit result constructors.
-/

namespace Med

/-- A row of `schedules.csv`: one 30-minute capacity unit of a doctor
(the display code also reads a location column from these rows). -/
structure Slot where
  doctor_name : String
  date : String
  time : Nat
  available : Bool
  location : String
  deriving DecidableEq, Repr

/-- A row of `doctors.csv`. -/
structure Doctor where
  doctor_name : String
  specialization : String
  location : String
  deriving DecidableEq, Repr

/-- A row of `patients.csv` (also the shape produced by `add_new_patient`). -/
structure PatientRow where
  patient_id : String
  name : String
  dob : String
  phone : String
  email : String
  insurance_carrier : String
  member_id : String
  group_id : String
  preferred_doctor : String
  previous_visits : Int
  deriving DecidableEq, Repr

/-- The appointment record synthesized by `PatientDatabase.book_appointment`.
The wallclock-derived `appointment_id` and `created_at` fields are omitted
from the model (they carry no scheduling information). `patient_name` is
`none` when the patient dict lacks the key (Python `dict.get` gives `None`). -/
structure Appointment where
  patient_id : String
  patient_name : Option String
  doctor_name : String
  date : String
  time : Nat
  duration : Nat
  location : String
  status : String
  deriving DecidableEq, Repr

/-- `config.APPOINTMENT_DURATIONS["new_patient"]`. -/
def APPOINTMENT_DURATIONS_new_patient : Nat := 60

/-- `config.APPOINTMENT_DURATIONS["returning_patient"]`. -/
def APPOINTMENT_DURATIONS_returning_patient : Nat := 30

/-- View of a patient dict for `is_returning_patient`: `none` is Python
`None`; `some entries` is a dict, listing every key present.  Only the
integer value of `"previous_visits"` is read by the embedded code, so
values of the other (string-valued) fields are represented by `0`. -/
abbrev PatientDict := Option (List (String × Int))

/-- `PatientDatabase.is_returning_patient`: `None` and the empty dict are
falsy; a dict without the `previous_visits` key gives `False`; otherwise
the visit count is compared with `0`. -/
def is_returning_patient (patient_info : PatientDict) : Bool :=
  match patient_info with
  | none => false
  | some entries =>
      if entries.isEmpty then false
      else
        match entries.lookup "previous_visits" with
        | some n => decide (0 < n)
        | none => false

/-- The dict view of a `patients.csv` row: all its keys, with the integer
visit count; string-valued fields are represented by `0` (unread). -/
def PatientRow.toDict (r : PatientRow) : List (String × Int) :=
  [("patient_id", 0), ("name", 0), ("dob", 0), ("phone", 0), ("email", 0),
   ("insurance_carrier", 0), ("member_id", 0), ("group_id", 0),
   ("preferred_doctor", 0), ("previous_visits", r.previous_visits)]

/-- The conversation state field `patient_info` is either the empty dict
(`none` here) or a full patient row; this is its `PatientDict` view. -/
def patientView (p : Option PatientRow) : PatientDict :=
  match p with
  | none => some []
  | some r => some r.toDict

/-- `PatientDatabase.get_doctor_info`: first row of `doctors.csv` whose
name equals the argument, if any. -/
def get_doctor_info (doctors : List Doctor) (doctor_name : String) : Option Doctor :=
  doctors.find? (fun d => d.doctor_name == doctor_name)

/-- `PatientDatabase.get_all_doctors`. -/
def get_all_doctors (doctors : List Doctor) : List String :=
  doctors.map (·.doctor_name)

/-- True iff `schedules` holds an available row keyed
(`doctor_name`, `date`, `t`); the shape of every availability test the
source performs with a pandas query. -/
def slotFree (schedules : List Slot) (doctor_name date : String) (t : Nat) : Bool :=
  schedules.any (fun s =>
    s.doctor_name == doctor_name && s.date == date && s.time == t && s.available)

/-- `PatientDatabase.get_available_slots`: the available rows of the
doctor (restricted to `date` when given, Python `None` being `none`), in
row order; for a duration above 30 minutes a row is kept only when the
whole schedule holds an available row for the same doctor and date at
time `(t + 30) % 1440` (the source formats `time + 30min` with
`strftime('%H:%M')`, hence the midnight wrap). -/
def get_available_slots (schedules : List Slot) (doctor_name : String)
    (date : Option String) (duration : Nat) : List Slot :=
  let pool := schedules.filter (fun s =>
    s.doctor_name == doctor_name && s.available &&
      (match date with
       | some d => s.date == d
       | none => true))
  pool.filter (fun s =>
    if duration ≤ 30 then true
    else slotFree schedules doctor_name s.date ((s.time + 30) % 1440))

/-- The pandas statement `df.loc[key_query, 'available'] = False`: every
row keyed (`doctor_name`, `date`, `t`) gets its availability cleared, all
other rows and fields are untouched. -/
def markUnavailable (schedules : List Slot) (doctor_name date : String) (t : Nat) :
    List Slot :=
  schedules.map (fun s =>
    if s.doctor_name == doctor_name && s.date == date && s.time == t then
      { s with available := false }
    else s)

/-- Outcome of `PatientDatabase.book_appointment`: the appointment, or a
raised exception (caught by the caller). -/
inductive BookOutcome where
  | ok (a : Appointment)
  | exn (msg : String)
  deriving DecidableEq, Repr

/-- `PatientDatabase.book_appointment`.  In source order: mark the primary
slot unavailable; when `duration > 30` also mark the slot 30 minutes later
(same date, time wrapped by `strftime`); write the CSV (raising when the
store write fails, after the in-memory mutation); then build the
appointment record, raising when the doctor lookup returns `None`.
Returns the outcome together with the in-memory schedule state, which
keeps its mutation on every path. -/
def book_appointment (doctors : List Doctor) (schedules : List Slot)
    (writeOk : Bool) (doctor_name date : String) (t duration : Nat)
    (patient_info : Option PatientRow) : BookOutcome × List Slot :=
  let s1 := markUnavailable schedules doctor_name date t
  let s2 := if 30 < duration then markUnavailable s1 doctor_name date ((t + 30) % 1440)
            else s1
  if !writeOk then (.exn "to_csv failed", s2)
  else
    match get_doctor_info doctors doctor_name with
    | none => (.exn "TypeError: NoneType is not subscriptable", s2)
    | some dr =>
        (.ok { patient_id := (patient_info.map (·.patient_id)).getD "NEW"
               patient_name := patient_info.map (·.name)
               doctor_name := doctor_name
               date := date
               time := t
               duration := duration
               location := dr.location
               status := "confirmed" }, s2)

/-- `PatientDatabase.add_new_patient`: appends a row with a fresh id and
zero visits.  The Python `f"P...03d"` id is modelled as `"P" ++ digits`. -/
def add_new_patient (patients : List PatientRow) (name dob phone email preferred : String) :
    PatientRow × List PatientRow :=
  let n := patients.length + 1
  let idStr := "P" ++ (if n < 10 then "00" else if n < 100 then "0" else "") ++ toString n
  let row : PatientRow :=
    { patient_id := idStr, name := name, dob := dob, phone := phone, email := email
      insurance_carrier := "TBD", member_id := "TBD", group_id := "TBD"
      preferred_doctor := preferred, previous_visits := 0 }
  (row, patients ++ [row])

/-- `SmartScheduler.determine_appointment_duration`. -/
def determine_appointment_duration (patient_info : PatientDict) : Nat :=
  if is_returning_patient patient_info then APPOINTMENT_DURATIONS_returning_patient
  else APPOINTMENT_DURATIONS_new_patient

/-- Result of `SmartScheduler.schedule_appointment`: `booked a` is
`(appointment, None)`, `conflict m` is the no-mutation failure
`(None, "Selected time slot is no longer available")`, `error m` is the
caught-exception failure `(None, "Error booking appointment: ...")`. -/
inductive ScheduleResult where
  | booked (a : Appointment)
  | conflict (msg : String)
  | error (msg : String)
  deriving DecidableEq, Repr

/-- `SmartScheduler.schedule_appointment`: derive the duration from the
patient, re-check availability of the requested slot with
`get_available_slots` against the current schedule state, fail without
mutation when it is gone, otherwise run `book_appointment` and catch any
raised exception.  Returns the result with the schedule state after the
call. -/
def schedule_appointment (doctors : List Doctor) (schedules : List Slot)
    (writeOk : Bool) (patient_info : Option PatientRow)
    (doctor_name date : String) (t : Nat) : ScheduleResult × List Slot :=
  let duration := determine_appointment_duration (patientView patient_info)
  let available_slots := get_available_slots schedules doctor_name (some date) duration
  if available_slots.any (fun s => s.date == date && s.time == t) then
    match book_appointment doctors schedules writeOk doctor_name date t duration patient_info with
    | (.ok a, s2) => (.booked a, s2)
    | (.exn m, s2) => (.error ("Error booking appointment: " ++ m), s2)
  else
    (.conflict "Selected time slot is no longer available", schedules)

/-- `SmartScheduler.get_available_appointments` with no preferred date:
the 14-day window of dates (derived from the wallclock in the source,
supplied here as `window`) is scanned in order, collecting the available
slots of each date with the default 60-minute duration. -/
def get_available_appointments (schedules : List Slot) (doctor_name : String)
    (window : List String) : List Slot :=
  window.foldl (fun acc d => acc ++ get_available_slots schedules doctor_name (some d) 60) []

/-! ### String helpers used by the conversation engine -/

/-- The whitespace characters recognised by Python `str.strip()` that can
occur in chat input. -/
def isSpaceChar (c : Char) : Bool :=
  c == ' ' || c == '\t' || c == '\n' || c == '\r'

/-- Python `str.strip()`. -/
def pyStrip (s : String) : String :=
  ⟨((s.toList.dropWhile isSpaceChar).reverse.dropWhile isSpaceChar).reverse⟩

/-- Python `str.upper()` on the ASCII inputs the engine compares. -/
def pyUpper (s : String) : String :=
  ⟨s.toList.map Char.toUpper⟩

/-- `pattern` occurs as a contiguous sublist of `text`. -/
def subList (pattern text : List Char) : Bool :=
  (List.range (text.length + 1)).any (fun i => List.isPrefixOf pattern (text.drop i))

/-- Case-insensitive containment `needle in hay` (both lowered), the
comparison made by `str.contains(..., case=False)` and by the fuzzy
doctor match (regex metacharacters never occur in the names involved). -/
def containsCI (hay needle : String) : Bool :=
  subList (needle.toList.map Char.toLower) (hay.toList.map Char.toLower)

/-- `PatientDatabase.find_patient` as the agent calls it (name only):
first patients row whose name contains the query case-insensitively. -/
def find_patient (patients : List PatientRow) (name : String) : Option PatientRow :=
  (patients.filter (fun p => containsCI p.name name)).head?

/-- Split a character list on a separator character. -/
def splitOnChar (sep : Char) : List Char → List (List Char)
  | [] => [[]]
  | c :: cs =>
      let r := splitOnChar sep cs
      if c == sep then [] :: r
      else
        match r with
        | [] => [[c]]
        | h :: t => (c :: h) :: t

/-- Characters of the local part of the email pattern
`[a-zA-Z0-9._%+-]`. -/
def isLocalChar (c : Char) : Bool :=
  c.isAlphanum || c == '.' || c == '_' || c == '%' || c == '+' || c == '-'

/-- Characters of the host part `[a-zA-Z0-9.-]` other than the dot
(handled by splitting). -/
def isHostChar (c : Char) : Bool :=
  c.isAlphanum || c == '-'

/-- The regex `^[a-zA-Z0-9._%+-]+@[a-zA-Z0-9.-]+\.[a-zA-Z]\x7b2,\x7d$` of
`handle_email_collection`: exactly one `@`; a non-empty local part of
local characters; after the `@`, at least one host character before a
final dot, and a final all-alphabetic label of length at least two.  The
split at the last dot is the only decomposition the regex can use, since
the final label admits no dot. -/
def valid_email (s : String) : Bool :=
  match splitOnChar '@' s.toList with
  | [lp, rest] =>
      !lp.isEmpty && lp.all isLocalChar &&
        (let ds := splitOnChar '.' rest
         match ds.getLast? with
         | some tld =>
             2 ≤ ds.length && tld.length + 2 ≤ rest.length &&
               (ds.dropLast).all (fun p => p.all isHostChar) &&
               2 ≤ tld.length && tld.all (fun c => c.isAlpha)
         | none => false)
  | _ => false

/-- Non-empty all-digit character list. -/
def isDigitList (cs : List Char) : Bool :=
  !cs.isEmpty && cs.all Char.isDigit

/-- Numeric value of a digit list. -/
def digitsToNat (cs : List Char) : Nat :=
  cs.foldl (fun a c => a * 10 + (c.toNat - 48)) 0

/-- Python `int(...)` on stripped input: optional sign then digits. -/
def pyInt (s : String) : Option Int :=
  match s.toList with
  | '-' :: ds => if isDigitList ds then some (-(digitsToNat ds : Int)) else none
  | '+' :: ds => if isDigitList ds then some ((digitsToNat ds : Int)) else none
  | ds => if isDigitList ds then some ((digitsToNat ds : Int)) else none

def isLeapYear (y : Nat) : Bool :=
  (y % 4 == 0 && y % 100 != 0) || y % 400 == 0

def daysInMonth (y m : Nat) : Nat :=
  if m == 2 then (if isLeapYear y then 29 else 28)
  else if m == 4 || m == 6 || m == 9 || m == 11 then 30
  else 31

/-- `datetime.strptime(s, '%Y-%m-%d')` as a calendar-date parser: three
dash-separated digit groups (year up to four digits, month and day up to
two) forming a valid calendar date. -/
def parseDateYMD (s : String) : Option (Nat × Nat × Nat) :=
  match splitOnChar '-' s.toList with
  | [ys, ms, ds] =>
      if isDigitList ys && ys.length ≤ 4 && isDigitList ms && ms.length ≤ 2 &&
          isDigitList ds && ds.length ≤ 2 then
        let y := digitsToNat ys
        let m := digitsToNat ms
        let d := digitsToNat ds
        if 1 ≤ y && 1 ≤ m && m ≤ 12 && 1 ≤ d && d ≤ daysInMonth y m then
          some (y, m, d)
        else none
      else none
  | _ => none

/-- Strict chronological order on parsed dates. -/
def dateLt (a b : Nat × Nat × Nat) : Bool :=
  Nat.blt a.1 b.1 ||
    (a.1 == b.1 && (Nat.blt a.2.1 b.2.1 || (a.2.1 == b.2.1 && Nat.blt a.2.2 b.2.2)))

/-! ### The conversation state machine (`PatientAgent`) -/

/-- The `step` values of the conversation-state dict. -/
inductive Step where
  | greeting
  | collect_name
  | collect_dob
  | collect_doctor
  | collect_phone
  | collect_email
  | show_availability
  | collect_insurance
  | confirm_appointment
  deriving DecidableEq, Repr

/-- The `collected_data` sub-dict of the conversation state. -/
structure Collected where
  name : Option String
  dob : Option String
  doctor : Option String
  location : Option String
  phone : Option String
  email : Option String
  insurance : List (String × String)
  deriving DecidableEq, Repr

/-- The conversation-state dict of `PatientAgent`.  `patient_info` and
`appointment_info` start as empty dicts, modelled by `none`; the
`insurance_temp` key is absent until insurance collection starts. -/
structure ConvState where
  step : Step
  patient_info : Option PatientRow
  appointment_info : Option Slot
  collected : Collected
  insurance_temp : Option (List (String × String))
  deriving DecidableEq, Repr

/-- `PatientAgent.reset_conversation`: the freshly reset state. -/
def reset_conversation : ConvState :=
  { step := .greeting
    patient_info := none
    appointment_info := none
    collected :=
      { name := none, dob := none, doctor := none, location := none
        phone := none, email := none, insurance := [] }
    insurance_temp := none }

/-- The collaborating repositories and ambient facts of one turn: the
CSV-backed tables, the 14-day date window `get_available_appointments`
derives from the wallclock, the current date, and whether the CSV store
write succeeds. -/
structure Env where
  patients : List PatientRow
  doctors : List Doctor
  schedules : List Slot
  window : List String
  today : Nat × Nat × Nat
  writeOk : Bool
  deriving DecidableEq, Repr

/-- Result of one engine turn: a reply with the updated conversation and
repository state, or an uncaught Python exception (whose partial
mutations of both are recorded). -/
inductive TurnOut where
  | ok (st : ConvState) (env : Env) (reply : String)
  | exn (st : ConvState) (env : Env) (err : String)
  deriving DecidableEq, Repr

/-- `PatientAgent.handle_greeting`: any input advances to name
collection. -/
def handle_greeting (env : Env) (st : ConvState) (_input : String) : TurnOut :=
  .ok { st with step := .collect_name } env
    "Welcome to Medical Center Appointment Scheduling! Please provide your full name:"

/-- `PatientAgent.handle_name_collection`: a stripped input below two
characters re-prompts without any change; otherwise the name is stored
and the patient lookup branches to doctor selection (found) or
date-of-birth collection (new patient). -/
def handle_name_collection (env : Env) (st : ConvState) (input : String) : TurnOut :=
  let name := pyStrip input
  if name.length < 2 then .ok st env "Please provide a valid full name:"
  else
    let st1 := { st with collected := { st.collected with name := some name } }
    match find_patient env.patients name with
    | some p =>
        .ok { st1 with patient_info := some p, step := .collect_doctor } env
          "Great! I found your information in our system. Which doctor would you like to see?"
    | none =>
        .ok { st1 with step := .collect_dob } env
          "Thank you. I will set you up as a new patient. Please provide your date of birth (YYYY-MM-DD format):"

/-- `PatientAgent.handle_dob_collection`: an unparsable date re-prompts;
a future date re-prompts; otherwise the date of birth is stored and the
engine advances to doctor selection. -/
def handle_dob_collection (env : Env) (st : ConvState) (input : String) : TurnOut :=
  let dob := pyStrip input
  match parseDateYMD dob with
  | none =>
      .ok st env "Please enter date of birth in YYYY-MM-DD format (e.g., 1990-05-15):"
  | some d =>
      if dateLt env.today d then
        .ok st env "Date of birth cannot be in the future. Please enter a valid date (YYYY-MM-DD):"
      else
        .ok { st with collected := { st.collected with dob := some dob }
                      step := .collect_doctor } env
          "Thank you. Now, which doctor would you like to see? Please type the doctor name:"

/-- `PatientAgent.show_availability`: queries the 14-day window; with no
slots the step is left unchanged (the caller keeps its state), otherwise
the step becomes slot selection. -/
def show_availability (env : Env) (st : ConvState) : TurnOut :=
  let doctor_name := st.collected.doctor.getD ""
  let available_slots := get_available_appointments env.schedules doctor_name env.window
  if available_slots.isEmpty then
    .ok st env "I am sorry, that doctor has no available appointments in the next 2 weeks. Would you like to try a different doctor?"
  else
    .ok { st with step := .show_availability } env
      "Here are the available appointment slots. Please type the number of your preferred slot:"

/-- `PatientAgent.handle_doctor_selection`: first doctor whose name
contains the input or is contained in it (case-insensitively); no match
re-prompts without change; a match stores doctor and location, then an
existing patient goes straight to availability while a new patient is
asked for a phone number. -/
def handle_doctor_selection (env : Env) (st : ConvState) (input : String) : TurnOut :=
  let doctor_input := pyStrip input
  match env.doctors.find? (fun d =>
      containsCI d.doctor_name doctor_input || containsCI doctor_input d.doctor_name) with
  | none =>
      .ok st env "I did not recognize that doctor. Please select from our available doctors:"
  | some d =>
      let st1 := { st with collected := { st.collected with
                     doctor := some d.doctor_name, location := some d.location } }
      if st1.patient_info.isSome then show_availability env st1
      else
        .ok { st1 with step := .collect_phone } env "Please provide your phone number:"

/-- `PatientAgent.handle_phone_collection`: a stripped input below ten
characters re-prompts without change; otherwise the phone is stored and
the engine advances to email collection. -/
def handle_phone_collection (env : Env) (st : ConvState) (input : String) : TurnOut :=
  let phone := pyStrip input
  if phone.length < 10 then .ok st env "Please provide a valid phone number:"
  else
    .ok { st with collected := { st.collected with phone := some phone }
                  step := .collect_email } env
      "Please provide your email address:"

/-- `PatientAgent.handle_email_collection`: an input failing the email
regex re-prompts without change.  On a valid email the source stores the
email, then builds `new_patient_data` whose `'phone'` entry reads the
local variable `phone` — a name never assigned in this function — so a
`NameError` is raised before `add_new_patient` is ever called, and no
handler catches it.  The model records the exception together with the
mutation already applied. -/
def handle_email_collection (env : Env) (st : ConvState) (input : String) : TurnOut :=
  let email := pyStrip input
  if !valid_email email then .ok st env "Please provide a valid email address:"
  else
    .exn { st with collected := { st.collected with email := some email } } env
      "NameError: name phone is not defined"

/-- `PatientAgent.show_appointment_summary`, in source order: reading the
date of an absent selected slot raises before the step changes; the step
then becomes confirmation; building the summary text raises on an empty
patient dict after the step change. -/
def show_appointment_summary (env : Env) (st : ConvState) : TurnOut :=
  match st.appointment_info with
  | none => .exn st env "KeyError: date"
  | some slot =>
      match parseDateYMD slot.date with
      | none => .exn st env "ValueError: strptime"
      | some _ =>
          let st1 := { st with step := .confirm_appointment }
          match st.patient_info with
          | none => .exn st1 env "KeyError: name"
          | some r =>
              let duration := if is_returning_patient (patientView (some r)) then 30 else 60
              .ok st1 env
                ("Please review your appointment details: " ++ r.name ++ " with " ++
                  slot.doctor_name ++ " on " ++ slot.date ++ " at " ++ toString slot.time ++
                  " minutes past midnight, " ++ slot.location ++ ", " ++ toString duration ++
                  " minutes. Type CONFIRM to book this appointment or CANCEL to start over:")

/-- `PatientAgent.handle_slot_selection`: a non-integer input re-prompts;
an in-range selection stores the chosen slot, then a missing or
placeholder (`TBD`) insurance carrier routes to insurance collection and
a real carrier to the confirmation summary; out-of-range re-prompts. -/
def handle_slot_selection (env : Env) (st : ConvState) (input : String) : TurnOut :=
  match pyInt (pyStrip input) with
  | none =>
      .ok st env "Please enter the number corresponding to your preferred time slot:"
  | some n =>
      let slot_number : Int := n - 1
      let doctor_name := st.collected.doctor.getD ""
      let available_slots := get_available_appointments env.schedules doctor_name env.window
      if 0 ≤ slot_number && slot_number < (available_slots.length : Int) then
        let selected := available_slots.getD slot_number.toNat
          { doctor_name := "", date := "", time := 0, available := false, location := "" }
        let st1 := { st with appointment_info := some selected }
        let carrier := match st1.patient_info with
          | none => ""
          | some r => r.insurance_carrier
        if carrier == "" || carrier == "TBD" then
          .ok { st1 with step := .collect_insurance } env
            "Before we confirm your appointment, I need to collect your insurance information. Start with your insurance carrier:"
        else show_appointment_summary env st1
      else
        .ok st env "Please select a valid slot number from the list above:"

/-- `PatientAgent.handle_insurance_collection`: the three sub-fields are
filled in order by whatever stripped input arrives (the source applies no
validation); the third input also copies the record into collected data
and produces the confirmation summary. -/
def handle_insurance_collection (env : Env) (st : ConvState) (input : String) : TurnOut :=
  let insurance_data := st.insurance_temp.getD []
  if (insurance_data.lookup "carrier").isNone then
    .ok { st with insurance_temp := some (insurance_data ++ [("carrier", pyStrip input)]) } env
      "Thank you. Now please provide your Member ID:"
  else if (insurance_data.lookup "member_id").isNone then
    .ok { st with insurance_temp := some (insurance_data ++ [("member_id", pyStrip input)]) } env
      "Great! Finally, please provide your Group ID:"
  else
    let d2 := insurance_data ++ [("group_id", pyStrip input)]
    show_appointment_summary env
      { st with insurance_temp := some d2
                collected := { st.collected with insurance := d2 } }

/-- `PatientAgent.book_appointment` (the agent-level method, wrapped in
`try`/`except`): an absent selected slot raises a `KeyError` that the
handler turns into the generic error reply; a scheduler failure keeps the
conversation state and reports it; on success, after the notification
side effects, the conversation resets, and the success text raises a
caught `KeyError` when the patient dict is empty (the reset has already
happened either way). -/
def agent_book_appointment (env : Env) (st : ConvState) : TurnOut :=
  match st.appointment_info with
  | none =>
      .ok st env "An error occurred while booking your appointment: KeyError: doctor_name. Please try again or contact our office directly."
  | some slot =>
      match schedule_appointment env.doctors env.schedules env.writeOk st.patient_info
          slot.doctor_name slot.date slot.time with
      | (.booked a, s2) =>
          let env2 := { env with schedules := s2 }
          match st.patient_info with
          | none =>
              .ok reset_conversation env2
                "An error occurred while booking your appointment: KeyError: email. Please try again or contact our office directly."
          | some p =>
              .ok reset_conversation env2
                ("Appointment Confirmed! Your appointment has been successfully booked: " ++
                  a.doctor_name ++ " on " ++ a.date ++ ". Confirmation email sent to " ++
                  p.email ++ ". Type anything to schedule another appointment.")
      | (.conflict m, s2) =>
          .ok st { env with schedules := s2 }
            ("Sorry, there was an error booking your appointment: " ++ m ++
              " Please try selecting a different time slot.")
      | (.error m, s2) =>
          .ok st { env with schedules := s2 }
            ("Sorry, there was an error booking your appointment: " ++ m ++
              " Please try selecting a different time slot.")

/-- `PatientAgent.handle_appointment_confirmation`: `CONFIRM` (after
strip and upper) books, `CANCEL` resets the whole session, anything else
re-prompts without change. -/
def handle_appointment_confirmation (env : Env) (st : ConvState) (input : String) : TurnOut :=
  let response := pyUpper (pyStrip input)
  if response == "CONFIRM" then agent_book_appointment env st
  else if response == "CANCEL" then
    .ok reset_conversation env "Appointment booking cancelled. Type anything to start over."
  else
    .ok st env "Please type CONFIRM to book the appointment or CANCEL to start over:"

/-- `PatientAgent.process_message`: dispatch on the current step. -/
def process_message (env : Env) (st : ConvState) (input : String) : TurnOut :=
  match st.step with
  | .greeting => handle_greeting env st input
  | .collect_name => handle_name_collection env st input
  | .collect_dob => handle_dob_collection env st input
  | .collect_doctor => handle_doctor_selection env st input
  | .collect_phone => handle_phone_collection env st input
  | .collect_email => handle_email_collection env st input
  | .show_availability => handle_slot_selection env st input
  | .collect_insurance => handle_insurance_collection env st input
  | .confirm_appointment => handle_appointment_confirmation env st input

/-! ### Interleaved execution of two reservation attempts -/

/-- How `schedule_appointment` reports a `book_appointment` outcome. -/
def bookToResult : BookOutcome → ScheduleResult
  | .ok a => .booked a
  | .exn m => .error ("Error booking appointment: " ++ m)

/-- Two `schedule_appointment` calls on the shared schedule state,
interleaved so that both availability re-checks read the state before
either `book_appointment` runs — an interleaving nothing in the source
forbids, since the check and the booking execute under no lock.  Each
attempt's steps are verbatim those of `schedule_appointment`; only their
order across the two calls differs.  Returns both results and the final
schedule state. -/
def schedule_two_interleaved (doctors : List Doctor) (schedules : List Slot)
    (pA pB : Option PatientRow) (doctor_name date : String) (tA tB : Nat) :
    ScheduleResult × ScheduleResult × List Slot :=
  let durA := determine_appointment_duration (patientView pA)
  let durB := determine_appointment_duration (patientView pB)
  let okA := (get_available_slots schedules doctor_name (some date) durA).any
    (fun s => s.date == date && s.time == tA)
  let okB := (get_available_slots schedules doctor_name (some date) durB).any
    (fun s => s.date == date && s.time == tB)
  let ra := if okA then
      (let p := book_appointment doctors schedules true doctor_name date tA durA pA
       (bookToResult p.1, p.2))
    else (.conflict "Selected time slot is no longer available", schedules)
  let rb := if okB then
      (let q := book_appointment doctors ra.2 true doctor_name date tB durB pB
       (bookToResult q.1, q.2))
    else (.conflict "Selected time slot is no longer available", ra.2)
  (ra.1, rb.1, rb.2)

/-! ### Concrete fixtures for witnesses and counterexamples -/

/-- A doctors table with one provider. -/
def exDoctors : List Doctor :=
  [{ doctor_name := "Dr. Smith", specialization := "Cardiology", location := "Main Clinic" }]

/-- 09:00 available, 09:30 available, 10:00 already booked. -/
def exSched : List Slot :=
  [{ doctor_name := "Dr. Smith", date := "2026-10-13", time := 540, available := true,
     location := "Main Clinic" },
   { doctor_name := "Dr. Smith", date := "2026-10-13", time := 570, available := true,
     location := "Main Clinic" },
   { doctor_name := "Dr. Smith", date := "2026-10-13", time := 600, available := false,
     location := "Main Clinic" }]

/-- A returning patient on file (two previous visits). -/
def exJane : PatientRow :=
  { patient_id := "P001", name := "Jane Doe", dob := "1990-05-15", phone := "5551234567"
    email := "jane@example.com", insurance_carrier := "Aetna", member_id := "M123"
    group_id := "G9", preferred_doctor := "Dr. Smith", previous_visits := 2 }

/-- A one-day environment over the fixtures. -/
def exEnv : Env :=
  { patients := [exJane], doctors := exDoctors, schedules := exSched
    window := ["2026-10-13"], today := (2026, 10, 12), writeOk := true }

/-! ### Lemmas about the availability pool and the slot mutation -/

theorem mem_get_available_slots {sched : List Slot} {d date : String} {dur : Nat} {s : Slot}
    (h : s ∈ get_available_slots sched d (some date) dur) :
    s ∈ sched ∧ s.doctor_name = d ∧ s.available = true ∧ s.date = date ∧
      (30 < dur → slotFree sched d s.date ((s.time + 30) % 1440) = true) := by
  unfold get_available_slots at h
  simp only [List.mem_filter, Bool.and_eq_true, beq_iff_eq] at h
  obtain ⟨⟨hmem, ⟨hdoc, hav⟩, hdate⟩, hdur⟩ := h
  refine ⟨hmem, hdoc, hav, hdate, ?_⟩
  intro h30
  have hlt : ¬ dur ≤ 30 := by omega
  rw [if_neg hlt] at hdur
  exact hdur

theorem validate_elim {sched : List Slot} {d date : String} {dur t : Nat}
    (h : (get_available_slots sched d (some date) dur).any
      (fun s => s.date == date && s.time == t) = true) :
    slotFree sched d date t = true ∧
      (30 < dur → slotFree sched d date ((t + 30) % 1440) = true) := by
  rw [List.any_eq_true] at h
  obtain ⟨s, hs, hst⟩ := h
  simp only [Bool.and_eq_true, beq_iff_eq] at hst
  obtain ⟨hsd, hstt⟩ := hst
  obtain ⟨hmem, hdoc, hav, hdate, hnext⟩ := mem_get_available_slots hs
  constructor
  · rw [slotFree, List.any_eq_true]
    exact ⟨s, hmem, by simp [hdoc, hav, hsd, hstt]⟩
  · intro hdur
    have hn := hnext hdur
    rwa [hdate, hstt] at hn

theorem markUnavailable_key_false {l : List Slot} {d date : String} {t : Nat} {s : Slot}
    (hs : s ∈ markUnavailable l d date t)
    (hd : s.doctor_name = d) (hdt : s.date = date) (ht : s.time = t) :
    s.available = false := by
  unfold markUnavailable at hs
  rw [List.mem_map] at hs
  obtain ⟨s0, _, heq⟩ := hs
  by_cases h0 : (s0.doctor_name == d && s0.date == date && s0.time == t) = true
  · rw [if_pos h0] at heq
    rw [← heq]
  · rw [if_neg h0] at heq
    subst heq
    simp [hd, hdt, ht] at h0

theorem markUnavailable_shape {l : List Slot} {d' date' : String} {t' : Nat} {s : Slot}
    (hs : s ∈ markUnavailable l d' date' t') :
    ∃ s0 ∈ l, s0.doctor_name = s.doctor_name ∧ s0.date = s.date ∧ s0.time = s.time ∧
      (s.available = s0.available ∨ s.available = false) := by
  unfold markUnavailable at hs
  rw [List.mem_map] at hs
  obtain ⟨s0, hs0, heq⟩ := hs
  by_cases h0 : (s0.doctor_name == d' && s0.date == date' && s0.time == t') = true
  · rw [if_pos h0] at heq
    exact ⟨s0, hs0, by rw [← heq], by rw [← heq], by rw [← heq], Or.inr (by rw [← heq])⟩
  · rw [if_neg h0] at heq
    subst heq
    exact ⟨s0, hs0, rfl, rfl, rfl, Or.inl rfl⟩

theorem slotFree_markUnavailable_self (l : List Slot) (d date : String) (t : Nat) :
    slotFree (markUnavailable l d date t) d date t = false := by
  rw [slotFree, List.any_eq_false]
  intro s hs
  simp only [Bool.and_eq_true, beq_iff_eq, not_and]
  rintro ⟨⟨hd, hdt⟩, ht⟩ hav
  have := markUnavailable_key_false hs hd hdt ht
  rw [this] at hav
  exact Bool.false_ne_true hav

theorem slotFree_markUnavailable_of_false {l : List Slot} {d date : String} {t : Nat}
    (h : slotFree l d date t = false) (d' date' : String) (t' : Nat) :
    slotFree (markUnavailable l d' date' t') d date t = false := by
  rw [slotFree, List.any_eq_false] at h ⊢
  intro s hs
  obtain ⟨s0, hs0, hd0, hdt0, ht0, hav⟩ := markUnavailable_shape hs
  have h0 := h s0 hs0
  simp only [Bool.and_eq_true, beq_iff_eq, not_and] at h0 ⊢
  rintro ⟨⟨hd, hdt⟩, ht⟩ hav1
  rcases hav with hsame | hfalse
  · exact h0 ⟨⟨hd0.trans hd, hdt0.trans hdt⟩, ht0.trans ht⟩ (hsame ▸ hav1)
  · rw [hfalse] at hav1
    exact Bool.false_ne_true hav1

/-! ### Claim theorems -/

/-- C1: for every reservation request (doctor, date, time, patient) the
booking operation re-validates at commit time against the current
schedule state: when the requested starting slot, or — for the
above-one-unit durations — its required following contiguous slot, is
unavailable, `schedule_appointment` returns the conflict error and
returns the schedule state completely unchanged (no mutation on
failure). -/
theorem C1_booking_revalidates_conflict_no_mutation
    (doctors : List Doctor) (sched : List Slot) (wOk : Bool) (p : Option PatientRow)
    (d date : String) (t : Nat) (hw : t + 30 < 1440)
    (h : slotFree sched d date t = false ∨
      (30 < determine_appointment_duration (patientView p) ∧
        slotFree sched d date (t + 30) = false)) :
    schedule_appointment doctors sched wOk p d date t =
      (.conflict "Selected time slot is no longer available", sched) := by
  have hval : (get_available_slots sched d (some date)
      (determine_appointment_duration (patientView p))).any
      (fun s => s.date == date && s.time == t) = false := by
    by_contra hc
    rw [Bool.not_eq_false] at hc
    obtain ⟨h1, h2⟩ := validate_elim hc
    rcases h with h | ⟨hdur, hnext⟩
    · rw [h1] at h
      exact absurd h (by decide)
    · have h3 := h2 hdur
      rw [Nat.mod_eq_of_lt hw] at h3
      rw [h3] at hnext
      exact absurd hnext (by decide)
  simp [schedule_appointment, hval]

/-- Witness for C1: a new patient (60 minutes) requests the 09:30 slot
whose following 10:00 unit is already booked; the booking fails with the
conflict error and the fixture schedule is untouched. -/
theorem C1_witness :
    schedule_appointment exDoctors exSched true none "Dr. Smith" "2026-10-13" 570 =
      (.conflict "Selected time slot is no longer available", exSched) :=
  C1_booking_revalidates_conflict_no_mutation exDoctors exSched true none
    "Dr. Smith" "2026-10-13" 570 (by decide) (Or.inr ⟨by decide, by decide⟩)

/-- C3, counterexample: for a three-unit duration (90 minutes) the claim
requires both trailing units (09:30 and 10:00) of the 09:00 candidate to
be available, yet the resolver lists 09:00 while the 10:00 unit is booked
— `get_available_slots` checks only the single immediately following
slot, whatever the duration. -/
theorem C3_counterexample :
    (get_available_slots exSched "Dr. Smith" (some "2026-10-13") 90).any
        (fun s => s.time == 540) = true ∧
      slotFree exSched "Dr. Smith" "2026-10-13" 600 = false := by decide

/-- C3, amended: every candidate the resolver returns for a duration
above one base unit is an available slot of the requested doctor and
date, and the schedule holds an available slot for the same doctor and
date thirty minutes later (time wrapped as the source's `strftime`
does); the resolver never checks more than that single following unit,
so for the two durations the policy produces (30 and 60 minutes) this
coincides with full contiguity. -/
theorem C3_amended_resolver_checks_one_following_unit
    (sched : List Slot) (d date : String) (dur : Nat) (s : Slot)
    (hdur : 30 < dur) (hs : s ∈ get_available_slots sched d (some date) dur) :
    s ∈ sched ∧ s.available = true ∧ s.doctor_name = d ∧ s.date = date ∧
      slotFree sched d date ((s.time + 30) % 1440) = true := by
  obtain ⟨hmem, hdoc, hav, hdate, hnext⟩ := mem_get_available_slots hs
  refine ⟨hmem, hav, hdoc, hdate, ?_⟩
  have hn := hnext hdur
  rwa [hdate] at hn

/-- Witness for the amended C3 at the fixture schedule: the 09:00 slot is
returned for a 60-minute request and its 09:30 neighbour is available. -/
theorem C3_amended_witness :
    ({ doctor_name := "Dr. Smith", date := "2026-10-13", time := 540, available := true,
       location := "Main Clinic" } : Slot) ∈ exSched ∧
      slotFree exSched "Dr. Smith" "2026-10-13" ((540 + 30) % 1440) = true := by
  have h := C3_amended_resolver_checks_one_following_unit exSched "Dr. Smith" "2026-10-13" 60
    { doctor_name := "Dr. Smith", date := "2026-10-13", time := 540, available := true,
      location := "Main Clinic" } (by decide) (by decide)
  exact ⟨h.1, h.2.2.2.2⟩

/-- In every branch of `book_appointment` the returned schedule state has
the starting unit marked unavailable. -/
theorem slotFree_book_start_false (doctors : List Doctor) (sched : List Slot) (w : Bool)
    (d date : String) (t dur : Nat) (p : Option PatientRow) :
    slotFree (book_appointment doctors sched w d date t dur p).2 d date t = false := by
  have hbase : slotFree (if 30 < dur then
      markUnavailable (markUnavailable sched d date t) d date ((t + 30) % 1440)
      else markUnavailable sched d date t) d date t = false := by
    split
    · exact slotFree_markUnavailable_of_false (slotFree_markUnavailable_self sched d date t) _ _ _
    · exact slotFree_markUnavailable_self sched d date t
  unfold book_appointment
  cases w
  · simpa using hbase
  · cases hgd : get_doctor_info doctors d <;> simp [hgd] <;> exact hbase

/-- C7, counterexample to the rollback claim: with the store write
failing, the booking of the available 09:00 unit surfaces the error, but
the returned in-memory schedule state has the unit marked unavailable —
the mutation applied before the failed write is never rolled back, so
the in-memory availability state differs from the state before the
attempt. -/
theorem C7_counterexample :
    (schedule_appointment exDoctors exSched false (some exJane) "Dr. Smith" "2026-10-13" 540).1 =
        .error "Error booking appointment: to_csv failed" ∧
      slotFree exSched "Dr. Smith" "2026-10-13" 540 = true ∧
      slotFree (schedule_appointment exDoctors exSched false (some exJane)
          "Dr. Smith" "2026-10-13" 540).2 "Dr. Smith" "2026-10-13" 540 = false := by decide

/-- Dispatch of `process_message` in the confirmation step. -/
theorem process_message_at_confirm (env : Env) (st : ConvState) (input : String)
    (h : st.step = .confirm_appointment) :
    process_message env st input = handle_appointment_confirmation env st input := by
  unfold process_message
  rw [h]

/-- With the store write failing, `book_appointment` raises. -/
theorem book_fst_write_fail (doctors : List Doctor) (sched : List Slot) (d date : String)
    (t dur : Nat) (p : Option PatientRow) :
    (book_appointment doctors sched false d date t dur p).1 = .exn "to_csv failed" := rfl

/-- C7, amended: when the underlying store write fails during booking,
the scheduler surfaces a booking error to the agent, the agent replies
with the error text while the conversation state stays exactly as it was
(the step does not advance), but the in-memory schedule mutation applied
before the failed write is kept, leaving the requested starting unit
marked unavailable — it is not rolled back. -/
theorem C7_amended_error_surfaced_state_kept_no_rollback
    (env : Env) (st : ConvState) (slot : Slot)
    (hwrite : env.writeOk = false)
    (hstep : st.step = .confirm_appointment)
    (happ : st.appointment_info = some slot)
    (hv : (get_available_slots env.schedules slot.doctor_name (some slot.date)
        (determine_appointment_duration (patientView st.patient_info))).any
        (fun s => s.date == slot.date && s.time == slot.time) = true) :
    ∃ env2 : Env,
      process_message env st "CONFIRM" =
        .ok st env2
          "Sorry, there was an error booking your appointment: Error booking appointment: to_csv failed Please try selecting a different time slot." ∧
        slotFree env2.schedules slot.doctor_name slot.date slot.time = false := by
  have h1 : (pyUpper (pyStrip "CONFIRM") == "CONFIRM") = true := by decide
  have hbook : book_appointment env.doctors env.schedules false slot.doctor_name
      slot.date slot.time (determine_appointment_duration (patientView st.patient_info))
      st.patient_info =
      (.exn "to_csv failed", (book_appointment env.doctors env.schedules false slot.doctor_name
        slot.date slot.time (determine_appointment_duration (patientView st.patient_info))
        st.patient_info).2) := by
    have he : book_appointment env.doctors env.schedules false slot.doctor_name
        slot.date slot.time (determine_appointment_duration (patientView st.patient_info))
        st.patient_info =
        ((book_appointment env.doctors env.schedules false slot.doctor_name
          slot.date slot.time (determine_appointment_duration (patientView st.patient_info))
          st.patient_info).1,
         (book_appointment env.doctors env.schedules false slot.doctor_name
          slot.date slot.time (determine_appointment_duration (patientView st.patient_info))
          st.patient_info).2) := rfl
    rw [he, book_fst_write_fail]
  have hsched : schedule_appointment env.doctors env.schedules false st.patient_info
      slot.doctor_name slot.date slot.time =
      (.error ("Error booking appointment: " ++ "to_csv failed"),
        (book_appointment env.doctors env.schedules false slot.doctor_name
          slot.date slot.time (determine_appointment_duration (patientView st.patient_info))
          st.patient_info).2) := by
    simp only [schedule_appointment]
    rw [if_pos hv, hbook]
  have hpm : process_message env st "CONFIRM" =
      .ok st
        { env with schedules := (book_appointment env.doctors env.schedules false
            slot.doctor_name slot.date slot.time
            (determine_appointment_duration (patientView st.patient_info))
            st.patient_info).2 }
        ("Sorry, there was an error booking your appointment: " ++
          ("Error booking appointment: " ++ "to_csv failed") ++
          " Please try selecting a different time slot.") := by
    rw [process_message_at_confirm env st "CONFIRM" hstep]
    simp only [handle_appointment_confirmation, if_pos h1, agent_book_appointment, happ,
      hwrite, hsched]
  refine ⟨{ env with schedules := (book_appointment env.doctors env.schedules false
      slot.doctor_name slot.date slot.time
      (determine_appointment_duration (patientView st.patient_info))
      st.patient_info).2 }, ?_, ?_⟩
  · rw [hpm]
    rfl
  · exact slotFree_book_start_false env.doctors env.schedules false slot.doctor_name
      slot.date slot.time _ st.patient_info

/-- Witness for the amended C7: the fixture with a failing store write,
the confirmation step, and Jane's selected 09:00 slot. -/
theorem C7_amended_witness :
    ∃ env2 : Med.Env,
      process_message
          { exEnv with writeOk := false }
          { reset_conversation with
              step := .confirm_appointment
              patient_info := some exJane
              appointment_info := some
                { doctor_name := "Dr. Smith", date := "2026-10-13", time := 540,
                  available := true, location := "Main Clinic" } }
          "CONFIRM" =
        .ok
          { reset_conversation with
              step := .confirm_appointment
              patient_info := some exJane
              appointment_info := some
                { doctor_name := "Dr. Smith", date := "2026-10-13", time := 540,
                  available := true, location := "Main Clinic" } }
          env2
          "Sorry, there was an error booking your appointment: Error booking appointment: to_csv failed Please try selecting a different time slot." ∧
        slotFree env2.schedules "Dr. Smith" "2026-10-13" 540 = false :=
  C7_amended_error_surfaced_state_kept_no_rollback
    { exEnv with writeOk := false }
    { reset_conversation with
        step := .confirm_appointment
        patient_info := some exJane
        appointment_info := some
          { doctor_name := "Dr. Smith", date := "2026-10-13", time := 540,
            available := true, location := "Main Clinic" } }
    { doctor_name := "Dr. Smith", date := "2026-10-13", time := 540,
      available := true, location := "Main Clinic" }
    rfl rfl rfl (by decide)

/-- Dispatch of `process_message` in the name-collection step. -/
theorem process_message_at_name (env : Env) (st : ConvState) (input : String)
    (h : st.step = .collect_name) :
    process_message env st input = handle_name_collection env st input := by
  unfold process_message
  rw [h]

/-- Dispatch of `process_message` in the phone-collection step. -/
theorem process_message_at_phone (env : Env) (st : ConvState) (input : String)
    (h : st.step = .collect_phone) :
    process_message env st input = handle_phone_collection env st input := by
  unfold process_message
  rw [h]

/-- A new patient created mid-conversation: placeholder insurance. -/
def exBob : PatientRow :=
  { patient_id := "P002", name := "Bob Ray", dob := "1980-01-02", phone := "5550001111"
    email := "bob@example.com", insurance_carrier := "TBD", member_id := "TBD"
    group_id := "TBD", preferred_doctor := "Dr. Smith", previous_visits := 0 }

/-- A session in the insurance-collection step with carrier and member id
already captured and the 09:00 slot selected. -/
def exStIns : ConvState :=
  { reset_conversation with
      step := .collect_insurance
      patient_info := some exBob
      appointment_info := some
        { doctor_name := "Dr. Smith", date := "2026-10-13", time := 540,
          available := true, location := "Main Clinic" }
      collected := { reset_conversation.collected with
        name := some "Bob Ray", doctor := some "Dr. Smith", location := some "Main Clinic" }
      insurance_temp := some [("carrier", "Aetna"), ("member_id", "M55")] }

/-- A session in the email-collection step of a new patient. -/
def exStEmail : ConvState :=
  { reset_conversation with
      step := .collect_email
      collected := { reset_conversation.collected with
        name := some "John Doe", dob := some "1990-05-15", doctor := some "Dr. Smith"
        location := some "Main Clinic", phone := some "5551234567" } }

/-- C5, counterexample: `CANCEL` is only understood in the confirmation
step.  In the reachable `collect_name` state (one greeting turn away from
the start) the input `CANCEL` is treated as a name: the session moves to
date-of-birth collection with the name recorded as `CANCEL`, not back to
the greeting state with empty collected data. -/
theorem C5_counterexample :
    process_message exEnv reset_conversation "Hi" =
        .ok { reset_conversation with step := .collect_name } exEnv
          "Welcome to Medical Center Appointment Scheduling! Please provide your full name:" ∧
      process_message exEnv { reset_conversation with step := .collect_name } "CANCEL" =
        .ok { reset_conversation with
                step := .collect_dob
                collected := { reset_conversation.collected with name := some "CANCEL" } }
          exEnv
          "Thank you. I will set you up as a new patient. Please provide your date of birth (YYYY-MM-DD format):" ∧
      Step.collect_dob ≠ Step.greeting ∧
      (some "CANCEL" : Option String) ≠ none := by decide

/-- C5, amended: from the confirmation step (the one state whose handler
recognises it), `CANCEL` — after strip and upper-casing — resets the
session to the greeting state with all collected data empty. -/
theorem C5_amended_cancel_resets_from_confirm (env : Env) (st : ConvState) (input : String)
    (hstep : st.step = .confirm_appointment)
    (hin : pyUpper (pyStrip input) = "CANCEL") :
    process_message env st input =
      .ok reset_conversation env "Appointment booking cancelled. Type anything to start over." := by
  rw [process_message_at_confirm env st input hstep]
  unfold handle_appointment_confirmation
  rw [hin]
  rfl

/-- Witness for the amended C5: a confirmation-step session, input
` cancel `. -/
theorem C5_amended_witness :
    process_message exEnv { exStIns with step := .confirm_appointment } " cancel " =
      .ok reset_conversation exEnv
        "Appointment booking cancelled. Type anything to start over." :=
  C5_amended_cancel_resets_from_confirm exEnv { exStIns with step := .confirm_appointment }
    " cancel " rfl (by decide)

/-- C6: in the email-collection step a valid email does not create a
patient record nor advance to availability — the source's
`handle_email_collection` reads the unassigned local variable `phone`
while building `new_patient_data`, raising an uncaught `NameError` (after
storing the email); an invalid email re-prompts with the state
unchanged, as claimed. -/
theorem C6_code_bug_valid_email_raises :
    process_message exEnv exStEmail "john@example.com" =
        .exn { exStEmail with
                 collected := { exStEmail.collected with email := some "john@example.com" } }
          exEnv "NameError: name phone is not defined" ∧
      process_message exEnv exStEmail "not-an-email" =
        .ok exStEmail exEnv "Please provide a valid email address:" := by decide

/-- C8, counterexample: in the insurance-collection step, with carrier
and member id already captured, a whitespace-only input is accepted as
the group id: the collected insurance record changes and the session
advances to the confirmation step instead of re-prompting unchanged. -/
theorem C8_counterexample :
    process_message exEnv exStIns "   " =
        .ok { exStIns with
                step := .confirm_appointment
                insurance_temp := some
                  [("carrier", "Aetna"), ("member_id", "M55"), ("group_id", "")]
                collected := { exStIns.collected with
                  insurance := [("carrier", "Aetna"), ("member_id", "M55"), ("group_id", "")] } }
          exEnv
          "Please review your appointment details: Bob Ray with Dr. Smith on 2026-10-13 at 540 minutes past midnight, Main Clinic, 60 minutes. Type CONFIRM to book this appointment or CANCEL to start over:" ∧
      Step.confirm_appointment ≠ Step.collect_insurance := by
  set_option maxRecDepth 4000 in decide

/-- C8, amended: empty or whitespace-only input in the name- and
phone-collection steps leaves the whole session state unchanged and
re-prompts; the insurance-collection step applies no such validation
(see the counterexample). -/
theorem C8_amended_blank_input_rejected_name_phone
    (env : Env) (st : ConvState) (input : String) (hblank : pyStrip input = "") :
    (st.step = .collect_name →
      process_message env st input = .ok st env "Please provide a valid full name:") ∧
    (st.step = .collect_phone →
      process_message env st input = .ok st env "Please provide a valid phone number:") := by
  constructor
  · intro h
    rw [process_message_at_name env st input h]
    unfold handle_name_collection
    rw [hblank]
    rfl
  · intro h
    rw [process_message_at_phone env st input h]
    unfold handle_phone_collection
    rw [hblank]
    rfl

/-- Witness for the amended C8: whitespace input in the name step. -/
theorem C8_amended_witness :
    process_message exEnv { reset_conversation with step := .collect_name } "   " =
      .ok { reset_conversation with step := .collect_name } exEnv
        "Please provide a valid full name:" :=
  (C8_amended_blank_input_rejected_name_phone exEnv
    { reset_conversation with step := .collect_name } "   " (by decide)).1 rfl

/-- C9: the duration policy is the total fixed mapping over the patient
record — a recorded visit count above zero gives the 30-minute returning
duration, everything else (no record, empty record, missing or
non-positive count) gives the 60-minute new-patient duration; the
function is total, so no error is raised. -/
theorem C9_duration_policy_fixed_mapping (p : PatientDict) :
    determine_appointment_duration p =
      if 0 < (match p with
              | none => (0 : Int)
              | some entries => (entries.lookup "previous_visits").getD 0) then
        APPOINTMENT_DURATIONS_returning_patient
      else APPOINTMENT_DURATIONS_new_patient := by
  cases p with
  | none => rfl
  | some entries =>
      cases hlk : entries.lookup "previous_visits" with
      | none =>
          cases entries with
          | nil => rfl
          | cons a l => simp [determine_appointment_duration, is_returning_patient, hlk]
      | some n =>
          have hne : entries.isEmpty = false := by
            cases entries with
            | nil => simp [List.lookup] at hlk
            | cons a l => rfl
          by_cases h0 : 0 < n
          · simp [determine_appointment_duration, is_returning_patient, hne, hlk, h0]
          · simp [determine_appointment_duration, is_returning_patient, hne, hlk, h0]

/-- C10: a `None` patient record, an empty one, and one without the
`previous_visits` key are all classified as not returning — without any
error — and assigned the 60-minute new-patient duration. -/
theorem C10_missing_visits_treated_as_new (entries : List (String × Int))
    (hmiss : entries.lookup "previous_visits" = none) :
    is_returning_patient none = false ∧
      is_returning_patient (some []) = false ∧
      is_returning_patient (some entries) = false ∧
      determine_appointment_duration none = 60 ∧
      determine_appointment_duration (some []) = 60 ∧
      determine_appointment_duration (some entries) = 60 := by
  have h3 : is_returning_patient (some entries) = false := by
    unfold is_returning_patient
    cases entries with
    | nil => rfl
    | cons a l => simp [hmiss]
  refine ⟨rfl, rfl, h3, rfl, rfl, ?_⟩
  unfold determine_appointment_duration
  rw [h3]
  rfl

/-- Witness for C10 on a record that has a name key but no visit count. -/
theorem C10_witness :
    is_returning_patient (some [("name", 0)]) = false ∧
      determine_appointment_duration (some [("name", 0)]) = 60 := by
  have h := C10_missing_visits_treated_as_new [("name", 0)] (by decide)
  exact ⟨h.2.2.1, h.2.2.2.2.2⟩

/-! ### Counting machinery for the two-slot frame property -/

/-- Success of `schedule_appointment` implies the availability re-check
passed and the returned state is the booked state. -/
theorem schedule_success_elim {doctors : List Doctor} {sched : List Slot} {w : Bool}
    {p : Option PatientRow} {d date : String} {t : Nat} {a : Appointment} {sched' : List Slot}
    (h : schedule_appointment doctors sched w p d date t = (.booked a, sched')) :
    (get_available_slots sched d (some date)
        (determine_appointment_duration (patientView p))).any
        (fun s => s.date == date && s.time == t) = true ∧
      sched' = (book_appointment doctors sched w d date t
        (determine_appointment_duration (patientView p)) p).2 := by
  by_cases hv : (get_available_slots sched d (some date)
      (determine_appointment_duration (patientView p))).any
      (fun s => s.date == date && s.time == t) = true
  · refine ⟨hv, ?_⟩
    simp only [schedule_appointment, if_pos hv] at h
    rcases hbook : book_appointment doctors sched w d date t
        (determine_appointment_duration (patientView p)) p with ⟨out, s2⟩
    rw [hbook] at h
    cases out with
    | ok a2 =>
        simp only [ScheduleResult.booked.injEq, Prod.mk.injEq] at h
        exact h.2.symm
    | exn m => simp at h
  · simp only [schedule_appointment, if_neg hv] at h
    simp at h

/-- With a duration above one unit, the schedule `book_appointment`
returns is the double mark of start and following unit. -/
theorem book_snd_eq_double_mark (doctors : List Doctor) (sched : List Slot) (w : Bool)
    (d date : String) (t dur : Nat) (p : Option PatientRow) (hdur : 30 < dur) :
    (book_appointment doctors sched w d date t dur p).2 =
      markUnavailable (markUnavailable sched d date t) d date ((t + 30) % 1440) := by
  unfold book_appointment
  cases w
  · simp [hdur]
  · cases hgd : get_doctor_info doctors d <;> simp [hgd, hdur]

/-- Marking two distinct times is one map flipping both key sets. -/
theorem mark_twice_eq_map (l : List Slot) (d date : String) (t t2 : Nat) (hne : t ≠ t2) :
    markUnavailable (markUnavailable l d date t) d date t2 =
      l.map (fun s =>
        if s.doctor_name = d ∧ s.date = date ∧ (s.time = t ∨ s.time = t2) then
          { s with available := false }
        else s) := by
  unfold markUnavailable
  rw [List.map_map]
  apply List.map_congr_left
  intro s _
  by_cases h1 : s.doctor_name = d <;> by_cases h2 : s.date = date <;>
    by_cases h3 : s.time = t <;> by_cases h4 : s.time = t2 <;>
      simp_all

/-- Counting the unavailable rows after flipping a predicate class. -/
theorem countP_flip (l : List Slot) (P : Slot → Prop) [DecidablePred P] :
    (l.map (fun s => if P s then { s with available := false } else s)).countP
        (fun s => !s.available) =
      l.countP (fun s => !s.available) + l.countP (fun s => decide (P s) && s.available) := by
  induction l with
  | nil => rfl
  | cons s l ih =>
      simp only [List.map_cons, List.countP_cons, ih]
      by_cases h : P s
      · cases ha : s.available <;> simp [h, ha] <;> omega
      · cases ha : s.available <;> simp [h, ha] <;> omega

/-- `countP` of a pointwise-equal predicate. -/
theorem countP_ext {α : Type} (l : List α) (p q : α → Bool) (h : ∀ a, p a = q a) :
    l.countP p = l.countP q := by
  induction l with
  | nil => rfl
  | cons a l ih => simp [List.countP_cons, h, ih]

/-- `countP` of a disjunction of mutually exclusive predicates. -/
theorem countP_disjoint_add {α : Type} (l : List α) (p q : α → Bool)
    (h : ∀ a, ¬(p a = true ∧ q a = true)) :
    l.countP (fun a => p a || q a) = l.countP p + l.countP q := by
  induction l with
  | nil => rfl
  | cons a l ih =>
      simp only [List.countP_cons, ih]
      by_cases hp : p a = true
      · have hq : ¬ q a = true := fun hq => h a ⟨hp, hq⟩
        simp [hp, hq]
        omega
      · by_cases hq : q a = true <;> simp [hp, hq] <;> omega

/-- With unique (doctor, date, time) keys, an available key occurs
exactly once. -/
theorem countP_key_avail_eq_one (l : List Slot) (d date : String) (t : Nat)
    (hfree : slotFree l d date t = true)
    (huniq : l.Pairwise (fun s1 s2 =>
      (s1.doctor_name, s1.date, s1.time) ≠ (s2.doctor_name, s2.date, s2.time))) :
    l.countP (fun s =>
      decide (s.doctor_name = d ∧ s.date = date ∧ s.time = t) && s.available) = 1 := by
  induction l with
  | nil => simp [slotFree] at hfree
  | cons s l ih =>
      rw [List.pairwise_cons] at huniq
      obtain ⟨hdist, htail⟩ := huniq
      rw [slotFree, List.any_cons] at hfree
      rw [List.countP_cons]
      by_cases hkey : s.doctor_name = d ∧ s.date = date ∧ s.time = t
      · obtain ⟨hk1, hk2, hk3⟩ := hkey
        have htail0 : l.countP (fun s =>
            decide (s.doctor_name = d ∧ s.date = date ∧ s.time = t) && s.available) = 0 := by
          rw [List.countP_eq_zero]
          intro s' hs' hpred
          simp only [Bool.and_eq_true, decide_eq_true_eq] at hpred
          obtain ⟨⟨hk1', hk2', hk3'⟩, _⟩ := hpred
          exact hdist s' hs' (by rw [hk1, hk2, hk3, hk1', hk2', hk3'])
        cases ha : s.available
        · exfalso
          have hhead : (s.doctor_name == d && s.date == date && s.time == t && s.available)
              = false := by simp [ha]
          rw [hhead, Bool.false_or, ← slotFree] at hfree
          rw [slotFree, List.any_eq_true] at hfree
          obtain ⟨s', hs', hp'⟩ := hfree
          simp only [Bool.and_eq_true, beq_iff_eq] at hp'
          exact hdist s' hs' (by rw [hk1, hk2, hk3, hp'.1.1.1, hp'.1.1.2, hp'.1.2])
        · rw [htail0]
          simp [hk1, hk2, hk3, ha]
      · have hhead : (s.doctor_name == d && s.date == date && s.time == t && s.available)
            = false := by
          rcases not_and_or.mp hkey with h1 | h23
          · simp [h1]
          · rcases not_and_or.mp h23 with h2 | h3
            · simp [h2]
            · simp [h3]
        rw [hhead, Bool.false_or, ← slotFree] at hfree
        have hps : ¬((decide (s.doctor_name = d ∧ s.date = date ∧ s.time = t) &&
            s.available) = true) := by simp [hkey]
        rw [if_neg hps, Nat.add_zero]
        exact ih hfree htail

/-- C2: with a duration above one base unit (here 60 minutes, two
units), a successful booking returns the schedule in which exactly the
starting unit and the immediately following unit of the requested doctor
and date have their availability cleared — every other row, and every
other field of those two rows, is unchanged — and the number of
unavailable rows grows by exactly two. -/
theorem C2_success_flips_exactly_two_units
    (doctors : List Doctor) (sched : List Slot) (p : Option PatientRow)
    (d date : String) (t : Nat) (a : Appointment) (sched' : List Slot)
    (hdur : 30 < determine_appointment_duration (patientView p))
    (hw : t + 30 < 1440)
    (huniq : sched.Pairwise (fun s1 s2 =>
      (s1.doctor_name, s1.date, s1.time) ≠ (s2.doctor_name, s2.date, s2.time)))
    (hsucc : schedule_appointment doctors sched true p d date t = (.booked a, sched')) :
    sched' = sched.map (fun s =>
        if s.doctor_name = d ∧ s.date = date ∧ (s.time = t ∨ s.time = t + 30) then
          { s with available := false }
        else s) ∧
      sched'.countP (fun s => !s.available) = sched.countP (fun s => !s.available) + 2 := by
  obtain ⟨hv, hs2⟩ := schedule_success_elim hsucc
  have hne : t ≠ t + 30 := by omega
  have hmap : sched' = sched.map (fun s =>
      if s.doctor_name = d ∧ s.date = date ∧ (s.time = t ∨ s.time = t + 30) then
        { s with available := false }
      else s) := by
    rw [hs2, book_snd_eq_double_mark doctors sched true d date t _ p hdur,
      Nat.mod_eq_of_lt hw, mark_twice_eq_map sched d date t (t + 30) hne]
  refine ⟨hmap, ?_⟩
  obtain ⟨hstart, hnextm⟩ := validate_elim hv
  have hnext : slotFree sched d date (t + 30) = true := by
    have := hnextm hdur
    rwa [Nat.mod_eq_of_lt hw] at this
  rw [hmap, countP_flip]
  have hsplit : sched.countP (fun s =>
      decide (s.doctor_name = d ∧ s.date = date ∧ (s.time = t ∨ s.time = t + 30)) &&
        s.available) = 2 := by
    have hext : sched.countP (fun s =>
        decide (s.doctor_name = d ∧ s.date = date ∧ (s.time = t ∨ s.time = t + 30)) &&
          s.available) =
        sched.countP (fun s =>
          (decide (s.doctor_name = d ∧ s.date = date ∧ s.time = t) && s.available) ||
            (decide (s.doctor_name = d ∧ s.date = date ∧ s.time = t + 30) && s.available)) := by
      apply countP_ext
      intro s
      by_cases h1 : s.doctor_name = d <;> by_cases h2 : s.date = date <;>
        by_cases h3 : s.time = t <;> by_cases h4 : s.time = t + 30 <;>
          simp_all
    rw [hext, countP_disjoint_add]
    · rw [countP_key_avail_eq_one sched d date t hstart huniq,
        countP_key_avail_eq_one sched d date (t + 30) hnext huniq]
    · intro s hcontra
      obtain ⟨hp1, hp2⟩ := hcontra
      simp only [Bool.and_eq_true, decide_eq_true_eq] at hp1 hp2
      exact hne (hp1.1.2.2 ▸ hp2.1.2.2)
  rw [hsplit]

/-- Witness for C2: the new-patient 60-minute booking of 09:00 on the
fixture schedule flips exactly the 09:00 and 09:30 rows. -/
theorem C2_witness :
    (schedule_appointment exDoctors exSched true none "Dr. Smith" "2026-10-13" 540).2 =
        exSched.map (fun s =>
          if s.doctor_name = "Dr. Smith" ∧ s.date = "2026-10-13" ∧
              (s.time = 540 ∨ s.time = 540 + 30) then
            { s with available := false }
          else s) ∧
      ((schedule_appointment exDoctors exSched true none
          "Dr. Smith" "2026-10-13" 540).2).countP (fun s => !s.available) =
        exSched.countP (fun s => !s.available) + 2 :=
  C2_success_flips_exactly_two_units exDoctors exSched none "Dr. Smith" "2026-10-13" 540
    { patient_id := "NEW", patient_name := none, doctor_name := "Dr. Smith"
      date := "2026-10-13", time := 540, duration := 60, location := "Main Clinic"
      status := "confirmed" }
    (schedule_appointment exDoctors exSched true none "Dr. Smith" "2026-10-13" 540).2
    (by decide) (by decide) (by decide) (by decide)

/-- With a duration of one base unit the booked schedule is the single
mark of the starting unit. -/
theorem book_snd_eq_single_mark (doctors : List Doctor) (sched : List Slot) (w : Bool)
    (d date : String) (t dur : Nat) (p : Option PatientRow) (hdur : ¬ 30 < dur) :
    (book_appointment doctors sched w d date t dur p).2 = markUnavailable sched d date t := by
  unfold book_appointment
  cases w
  · simp [hdur]
  · cases hgd : get_doctor_info doctors d <;> simp [hgd, hdur]

/-- The base units a reservation attempt checks and books: its starting
unit and, for a duration above one unit, the unit thirty minutes later
(time wrapped as the source's `strftime` does). -/
def unitsOf (t dur : Nat) : List Nat :=
  t :: (if 30 < dur then [(t + 30) % 1440] else [])

/-- C4, counterexample to the concurrent-exclusion claim: the source
takes no lock between the availability re-check and the booking, so in
the interleaving where both checks read the schedule before either
booking runs, two overlapping attempts on the same 09:00 start BOTH
return a booked appointment — neither receives the conflict error — and
the final state double-books the units. -/
theorem C4_counterexample :
    schedule_two_interleaved exDoctors exSched none none "Dr. Smith" "2026-10-13" 540 540 =
      (.booked { patient_id := "NEW", patient_name := none, doctor_name := "Dr. Smith"
                 date := "2026-10-13", time := 540, duration := 60, location := "Main Clinic"
                 status := "confirmed" },
       .booked { patient_id := "NEW", patient_name := none, doctor_name := "Dr. Smith"
                 date := "2026-10-13", time := 540, duration := 60, location := "Main Clinic"
                 status := "confirmed" },
       [{ doctor_name := "Dr. Smith", date := "2026-10-13", time := 540, available := false,
          location := "Main Clinic" },
        { doctor_name := "Dr. Smith", date := "2026-10-13", time := 570, available := false,
          location := "Main Clinic" },
        { doctor_name := "Dr. Smith", date := "2026-10-13", time := 600, available := false,
          location := "Main Clinic" }]) := by decide

/-- C4, amended: when the two attempts run sequentially (each turn of a
session completes before another is processed), overlap is detected: if
the first attempt booked successfully, any second attempt whose required
unit set overlaps the first one's receives the conflict error and leaves
the schedule exactly at the winner's footprint. -/
theorem C4_amended_sequential_overlap_conflicts
    (doctors : List Doctor) (sched : List Slot) (pA pB : Option PatientRow)
    (d date : String) (tA tB u : Nat) (a : Appointment) (schedA : List Slot)
    (hA : schedule_appointment doctors sched true pA d date tA = (.booked a, schedA))
    (huA : u ∈ unitsOf tA (determine_appointment_duration (patientView pA)))
    (huB : u ∈ unitsOf tB (determine_appointment_duration (patientView pB))) :
    schedule_appointment doctors schedA true pB d date tB =
      (.conflict "Selected time slot is no longer available", schedA) := by
  obtain ⟨hvA, hsA⟩ := schedule_success_elim hA
  have hufree : slotFree schedA d date u = false := by
    rw [hsA]
    by_cases hdA : 30 < determine_appointment_duration (patientView pA)
    · rw [book_snd_eq_double_mark doctors sched true d date tA _ pA hdA]
      simp only [unitsOf, if_pos hdA, List.mem_cons, List.mem_singleton,
        List.not_mem_nil, or_false] at huA
      rcases huA with rfl | rfl
      · exact slotFree_markUnavailable_of_false
          (slotFree_markUnavailable_self sched d date u) _ _ _
      · exact slotFree_markUnavailable_self _ d date _
    · rw [book_snd_eq_single_mark doctors sched true d date tA _ pA hdA]
      simp only [unitsOf, if_neg hdA, List.mem_cons, List.not_mem_nil, or_false] at huA
      subst huA
      exact slotFree_markUnavailable_self sched d date u
  have hvB : (get_available_slots schedA d (some date)
      (determine_appointment_duration (patientView pB))).any
      (fun s => s.date == date && s.time == tB) = false := by
    by_contra hc
    rw [Bool.not_eq_false] at hc
    obtain ⟨hstartB, hnextB⟩ := validate_elim hc
    by_cases hdB : 30 < determine_appointment_duration (patientView pB)
    · simp only [unitsOf, if_pos hdB, List.mem_cons, List.mem_singleton,
        List.not_mem_nil, or_false] at huB
      rcases huB with rfl | rfl
      · rw [hstartB] at hufree
        exact absurd hufree (by decide)
      · have hn := hnextB hdB
        rw [hn] at hufree
        exact absurd hufree (by decide)
    · simp only [unitsOf, if_neg hdB, List.mem_cons, List.not_mem_nil, or_false] at huB
      subst huB
      rw [hstartB] at hufree
      exact absurd hufree (by decide)
  simp [schedule_appointment, hvB]

/-- The fixture schedule after Jane's 30-minute 09:00 booking. -/
def exSchedAfterJane : List Slot :=
  [{ doctor_name := "Dr. Smith", date := "2026-10-13", time := 540, available := false,
     location := "Main Clinic" },
   { doctor_name := "Dr. Smith", date := "2026-10-13", time := 570, available := true,
     location := "Main Clinic" },
   { doctor_name := "Dr. Smith", date := "2026-10-13", time := 600, available := false,
     location := "Main Clinic" }]

/-- Witness for the amended C4: Jane books 09:00 first (30 minutes), a
second new-patient attempt on 09:00 then gets the conflict error and the
schedule stays at Jane's footprint. -/
theorem C4_amended_witness :
    schedule_appointment exDoctors exSchedAfterJane true none "Dr. Smith" "2026-10-13" 540 =
      (.conflict "Selected time slot is no longer available", exSchedAfterJane) :=
  C4_amended_sequential_overlap_conflicts exDoctors exSched (some exJane) none
    "Dr. Smith" "2026-10-13" 540 540 540
    { patient_id := "P001", patient_name := some "Jane Doe", doctor_name := "Dr. Smith"
      date := "2026-10-13", time := 540, duration := 30, location := "Main Clinic"
      status := "confirmed" }
    exSchedAfterJane (by decide) (by decide) (by decide)

/-- Witness evaluating the C9 mapping at a returning and a new record. -/
theorem C9_witness :
    determine_appointment_duration (some [("previous_visits", 2)]) =
        APPOINTMENT_DURATIONS_returning_patient ∧
      determine_appointment_duration (some [("previous_visits", 0)]) =
        APPOINTMENT_DURATIONS_new_patient :=
  ⟨(C9_duration_policy_fixed_mapping (some [("previous_visits", 2)])).trans (by decide),
   (C9_duration_policy_fixed_mapping (some [("previous_visits", 0)])).trans (by decide)⟩

end Med
